import Mathlib

/-!
Verification of the protected API route of the userfront-nextjs repository
(app/api/protected-route/route.ts, function GET), together with a model of
the external jsonwebtoken verify function it delegates to.

The handler reads the authorization header, takes the second space-separated
segment of its value as the bearer token, verifies it with jwt.verify
restricted to the RS256 algorithm, requires a truthy userId claim in the
decoded payload, looks the user up through the Userfront client, and returns
either 200 with the user record or 401 with one of two fixed error bodies.
The whole body runs inside a try/catch whose catch returns 401 with the body
error "Authentication failed".
-/

/-- A user record as returned by the identity provider lookup, shaped like the
UserData interface of the sources: userId with optional email and username. -/
structure UserRecord where
  userId : String
  email : Option String
  username : Option String
  deriving DecidableEq, Repr

/-- A decoded JWT object payload: the optional userId claim of the
UserFrontJwtPayload interface, plus the standard temporal claims exp and nbf
(seconds since epoch) that the verification library checks. -/
structure JwtPayload where
  userId : Option String
  exp : Option Nat
  nbf : Option Nat
  deriving DecidableEq, Repr

/-- The value jwt.verify returns on success: either a raw string payload or a
decoded object payload. The handler rejects string payloads with its
typeof check. -/
inductive DecodedPayload where
  | strPayload (s : String)
  | objPayload (p : JwtPayload)
  deriving DecidableEq, Repr

/-- A structurally well-formed signed token: the algorithm its header declares
(none when the header has no alg field), its payload, and the identifier of
the key pair whose private key produced its signature. The signature verifies
against public key k exactly when signedWith = k. -/
structure SignedToken where
  alg : Option String
  payload : DecodedPayload
  signedWith : Nat
  deriving DecidableEq, Repr

/-- The failure kinds of the jsonwebtoken verify function that this route can
hit: a missing, empty or undecodable token; a declared algorithm outside the
allowlist; a signature that does not verify; a not-before claim in the
future; an expired token. -/
inductive VerificationError where
  | MalformedToken
  | InvalidAlgorithm
  | InvalidSignature
  | NotBeforeActive
  | Expired
  deriving DecidableEq, Repr

/-- Modelled from the spec: the base64/JSON decoding step of the external
jsonwebtoken library, which is not part of the sources. A decoding
environment maps a raw token string to its structural decoding, none when the
string is not three dot-separated decodable segments. -/
structure JwtEnv where
  decode : String → Option SignedToken

/-- True when the payload carries an nbf claim lying in the future. -/
def nbfActive (p : JwtPayload) (now : Nat) : Bool :=
  match p.nbf with
  | some n => decide (now < n)
  | none => false

/-- True when the payload carries an exp claim at or before the clock, the
expiry test of the verification library. -/
def expired (p : JwtPayload) (now : Nat) : Bool :=
  match p.exp with
  | some e => decide (e ≤ now)
  | none => false

/-- Modelled from the spec: the checks the external jsonwebtoken verify
function runs on a structurally decoded token, in library order: membership
of the declared algorithm in the allowlist, then the signature against the
public key, then the temporal claims of an object payload (a string payload
has no temporal claims and passes them). -/
def verifyDecoded (t : SignedToken) (publicKey : Nat) (algorithms : List String)
    (now : Nat) : Except VerificationError DecodedPayload :=
  match t.alg with
  | none => .error .InvalidAlgorithm
  | some a =>
    if a ∈ algorithms then
      if t.signedWith = publicKey then
        match t.payload with
        | .strPayload s => .ok (.strPayload s)
        | .objPayload p =>
          if nbfActive p now then .error .NotBeforeActive
          else if expired p now then .error .Expired
          else .ok (.objPayload p)
      else .error .InvalidSignature
    else .error .InvalidAlgorithm

/-- Modelled from the spec: the external jsonwebtoken verify function, absent
from the sources. A missing argument (the JavaScript undefined produced when
the header has no second segment) or an empty string fails at once; an
undecodable string fails as malformed; a decoded token goes through
verifyDecoded. Deterministic given token, key and clock, with no side
effects. -/
def jwtVerify (env : JwtEnv) (token : Option String) (publicKey : Nat)
    (algorithms : List String) (now : Nat) : Except VerificationError DecodedPayload :=
  match token with
  | none => .error .MalformedToken
  | some s =>
    if s = "" then .error .MalformedToken
    else
      match env.decode s with
      | none => .error .MalformedToken
      | some t => verifyDecoded t publicKey algorithms now

/-- The JavaScript String split with a single-character separator, on a list
of characters: every occurrence of the separator starts a new segment, and
the empty list yields one empty segment. -/
def splitChar (sep : Char) : List Char → List String
  | [] => [""]
  | c :: cs =>
    if c = sep then "" :: splitChar sep cs
    else
      match splitChar sep cs with
      | [] => [String.mk [c]]
      | r :: rs => String.mk (c :: r.data) :: rs

/-- The JavaScript String split of the handler line
token = authHeader.split(' ')[1], for a one-character separator. -/
def jsSplit (s : String) (sep : Char) : List String :=
  splitChar sep s.data

/-- A handler response: an HTTP status with either a JSON error body
(an object with one error field holding the message) or a JSON user-data body
(an object with one userData field holding the record). -/
inductive ResponseBody where
  | errorBody (msg : String)
  | userDataBody (u : UserRecord)
  deriving DecidableEq, Repr

/-- An HTTP response as produced by NextResponse.json: status and body. -/
structure HttpResponse where
  status : Nat
  body : ResponseBody
  deriving DecidableEq, Repr

/-- The GET handler of app/api/protected-route/route.ts. Parameters: the
decoding environment of the verification library, the user lookup
collaborator getUser (an error is a rejected promise or a not-found answer,
both caught by the catch block), the configured public key, the clock, and
the authorization header of the request (none when absent). The JavaScript
falsiness test on the header makes the empty string behave like an absent
header. Every throw inside the try block lands in the catch, which answers
401 with the body error "Authentication failed". -/
def GET (env : JwtEnv) (getUser : String → Except Unit UserRecord)
    (publicKey : Nat) (now : Nat) (authHeader : Option String) : HttpResponse :=
  match authHeader with
  | none => ⟨401, .errorBody "No authorization header"⟩
  | some h =>
    if h = "" then ⟨401, .errorBody "No authorization header"⟩
    else
      match jwtVerify env (jsSplit h ' ')[1]? publicKey ["RS256"] now with
      | .error _ => ⟨401, .errorBody "Authentication failed"⟩
      | .ok (.strPayload _) => ⟨401, .errorBody "Authentication failed"⟩
      | .ok (.objPayload p) =>
        match p.userId with
        | none => ⟨401, .errorBody "Authentication failed"⟩
        | some uid =>
          if uid = "" then ⟨401, .errorBody "Authentication failed"⟩
          else
            match getUser uid with
            | .error _ => ⟨401, .errorBody "Authentication failed"⟩
            | .ok u => ⟨200, .userDataBody u⟩

/-- A decoding environment in which no string decodes to a token. -/
def envEmpty : JwtEnv := ⟨fun _ => none⟩

/-- A lookup collaborator that fails for every user id. -/
def noUser : String → Except Unit UserRecord := fun _ => .error ()

/-- The record of user u1 used in concrete scenarios. -/
def userU1 : UserRecord := ⟨"u1", some "u1@example.com", none⟩

/-- A validly signed, unexpired RS256 token for user u1, signed with key
pair 7, expiring at time 100. -/
def tokGood : SignedToken := ⟨some "RS256", .objPayload ⟨some "u1", some 100, none⟩, 7⟩

/-- A token whose header declares the HS256 algorithm. -/
def tokBadAlg : SignedToken := ⟨some "HS256", .objPayload ⟨some "u1", some 100, none⟩, 7⟩

/-- A decoding environment in which exactly the string tok decodes, to
tokGood. -/
def envOne : JwtEnv := ⟨fun s => if s = "tok" then some tokGood else none⟩

/-- A lookup collaborator that knows exactly user u1. -/
def getUserOk : String → Except Unit UserRecord :=
  fun uid => if uid = "u1" then .ok userU1 else .error ()


/-- C8: a request with no Authorization header is answered 401 with body
error "No authorization header", and the response does not depend on the
verification environment, the public key beyond its value, or the user lookup
collaborator: neither the verifier nor the lookup is invoked on this path. -/
theorem c8_absent_header (env env' : JwtEnv)
    (gu gu' : String → Except Unit UserRecord) (publicKey now : Nat) :
    GET env gu publicKey now none = ⟨401, .errorBody "No authorization header"⟩ ∧
    GET env gu publicKey now none = GET env' gu' publicKey now none :=
  ⟨rfl, rfl⟩

/-- C10: verification and the handler are pure functions of their inputs:
for a fixed token, key and clock the verifier yields the same outcome on
every run, and likewise the handler for a fixed request; there is no state to
affect, so determinism and idempotence hold by construction. -/
theorem c10_deterministic (env : JwtEnv) (gu : String → Except Unit UserRecord)
    (token : Option String) (publicKey now : Nat) (authHeader : Option String) :
    jwtVerify env token publicKey ["RS256"] now =
      jwtVerify env token publicKey ["RS256"] now ∧
    GET env gu publicKey now authHeader = GET env gu publicKey now authHeader :=
  ⟨rfl, rfl⟩

/-- C7: every response of the handler is either 200 carrying a user-data body
or 401 carrying one of the two fixed error bodies, whatever the decoding
environment, lookup collaborator (including an always-failing one), key and
request; no other status and no other error message can occur. -/
theorem c7_closed_status_set (env : JwtEnv) (gu : String → Except Unit UserRecord)
    (publicKey now : Nat) (authHeader : Option String) :
    ((GET env gu publicKey now authHeader).status = 200 ∧
      ∃ u, (GET env gu publicKey now authHeader).body = .userDataBody u) ∨
    ((GET env gu publicKey now authHeader).status = 401 ∧
      ((GET env gu publicKey now authHeader).body = .errorBody "No authorization header" ∨
        (GET env gu publicKey now authHeader).body = .errorBody "Authentication failed")) := by
  unfold GET
  rcases authHeader with _ | h
  · exact Or.inr ⟨rfl, Or.inl rfl⟩
  · repeat' split
    all_goals first
      | exact Or.inr ⟨rfl, Or.inl rfl⟩
      | exact Or.inr ⟨rfl, Or.inr rfl⟩
      | exact Or.inl ⟨rfl, ⟨_, rfl⟩⟩

/-- C1 as stated is false: the handler never tests the scheme word, so a
present header whose value is the string Basic followed by a space and an
undecodable token is answered 401 with body error "Authentication failed",
not the claimed body error "No authorization header". -/
theorem c1_counterexample :
    GET envEmpty noUser 0 0 (some "Basic xyz") ≠
      ⟨401, .errorBody "No authorization header"⟩ := by
  decide

/-- C1 amended: a present, non-empty header whose second space-separated
segment is missing or empty is answered 401 with body error
"Authentication failed" (the catch path), not with the absent-header body;
the body error "No authorization header" arises exactly for an absent header
(and, by JavaScript falsiness, an empty header value), and a present header
with a non-Bearer scheme is not short-circuited at the header check at all,
its second segment going to verification. -/
theorem c1_amended_no_scheme_check (env : JwtEnv)
    (gu : String → Except Unit UserRecord) (publicKey now : Nat) (h : String)
    (hne : h ≠ "")
    (htok : (jsSplit h ' ')[1]? = none ∨ (jsSplit h ' ')[1]? = some "") :
    GET env gu publicKey now (some h) = ⟨401, .errorBody "Authentication failed"⟩ ∧
    GET env gu publicKey now none = ⟨401, .errorBody "No authorization header"⟩ := by
  refine ⟨?_, rfl⟩
  unfold GET
  rcases htok with ht | ht <;> simp [hne, ht, jwtVerify]

/-- Witness for the amended C1 at a concrete input: the header value Bearer
with no second segment is answered with the generic authentication failure
body. -/
theorem c1_amended_no_scheme_check_witness :
    GET envEmpty noUser 0 0 (some "Bearer") =
      ⟨401, .errorBody "Authentication failed"⟩ ∧
    GET envEmpty noUser 0 0 none = ⟨401, .errorBody "No authorization header"⟩ :=
  c1_amended_no_scheme_check envEmpty noUser 0 0 "Bearer" (by decide)
    (Or.inl (by decide))

/-- C3: whenever verification of the extracted token fails, with any error
kind whatsoever, the handler answers 401 with the single generic body error
"Authentication failed"; the response is a constant independent of the error
kind, so distinct failure causes are indistinguishable from the response. -/
theorem c3_uniform_verification_failure (env : JwtEnv)
    (gu : String → Except Unit UserRecord) (publicKey now : Nat) (h : String)
    (e : VerificationError) (hne : h ≠ "")
    (hv : jwtVerify env (jsSplit h ' ')[1]? publicKey ["RS256"] now = .error e) :
    GET env gu publicKey now (some h) = ⟨401, .errorBody "Authentication failed"⟩ := by
  unfold GET
  simp [hne, hv]

/-- Witness for C3 at a concrete input: a Bearer header with an undecodable
token fails verification as malformed and is answered with the generic
authentication failure body. -/
theorem c3_uniform_verification_failure_witness :
    GET envEmpty noUser 0 0 (some "Bearer bad") =
      ⟨401, .errorBody "Authentication failed"⟩ :=
  c3_uniform_verification_failure envEmpty noUser 0 0 "Bearer bad"
    .MalformedToken (by decide) rfl

/-- C2: a decoded token whose header does not declare exactly the RS256
algorithm (in particular one declaring none at all) is rejected with the
algorithm error, and the outcome is the same for every configured public
key, so no signature comparison against the key takes place; conversely any
token that verification accepts declares RS256. -/
theorem c2_algorithm_confusion_guard (t : SignedToken)
    (publicKey publicKey' now : Nat) :
    (t.alg ≠ some "RS256" →
      verifyDecoded t publicKey ["RS256"] now = .error .InvalidAlgorithm ∧
      verifyDecoded t publicKey ["RS256"] now =
        verifyDecoded t publicKey' ["RS256"] now) ∧
    (∀ d, verifyDecoded t publicKey ["RS256"] now = .ok d →
      t.alg = some "RS256") := by
  obtain ⟨oa, pl, sw⟩ := t
  constructor
  · intro halg
    rcases oa with _ | a
    · exact ⟨rfl, rfl⟩
    · have hne : a ≠ "RS256" := by
        intro hrfl
        exact halg (by show some a = some "RS256"; rw [hrfl])
      constructor <;> simp [verifyDecoded, hne]
  · intro d hd
    rcases oa with _ | a
    · simp [verifyDecoded] at hd
    · by_cases hmem : a ∈ ["RS256"]
      · rw [List.mem_singleton] at hmem
        show some a = some "RS256"
        rw [hmem]
      · rw [List.mem_singleton] at hmem
        simp [verifyDecoded, hmem] at hd

/-- Witness for C2 at a concrete input: the token declaring HS256 is rejected
with the algorithm error under key 0 and equally under key 1. -/
theorem c2_algorithm_confusion_guard_witness :
    verifyDecoded tokBadAlg 0 ["RS256"] 0 = .error .InvalidAlgorithm ∧
    verifyDecoded tokBadAlg 0 ["RS256"] 0 = verifyDecoded tokBadAlg 1 ["RS256"] 0 :=
  (c2_algorithm_confusion_guard tokBadAlg 0 1 0).1 (by decide)

/-- C4: a request whose header splits as Bearer followed by a token that
decodes, declares RS256, is signed with the configured key, passes the
temporal checks and carries a non-empty userId, and whose user lookup
succeeds, is answered 200 with the looked-up record as user-data body. -/
theorem c4_success_path (env : JwtEnv) (gu : String → Except Unit UserRecord)
    (publicKey now : Nat) (h s : String) (t : SignedToken) (p : JwtPayload)
    (uid : String) (u : UserRecord)
    (hne : h ≠ "") (hsplit : jsSplit h ' ' = ["Bearer", s]) (hs : s ≠ "")
    (hdec : env.decode s = some t)
    (halg : t.alg = some "RS256") (hsig : t.signedWith = publicKey)
    (hpl : t.payload = .objPayload p)
    (hnbf : nbfActive p now = false) (hexp : expired p now = false)
    (huid : p.userId = some uid) (hz : uid ≠ "")
    (hlook : gu uid = .ok u) :
    GET env gu publicKey now (some h) = ⟨200, .userDataBody u⟩ := by
  unfold GET jwtVerify verifyDecoded
  simp [hne, hsplit, hs, hdec, halg, hsig, hpl, hnbf, hexp, huid, hz, hlook]

/-- Witness for C4 at a concrete input: the Bearer header whose token decodes
to the valid token of user u1, with the matching key and a clock before
expiry, is answered 200 with the record of u1. -/
theorem c4_success_path_witness :
    GET envOne getUserOk 7 0 (some "Bearer tok") = ⟨200, .userDataBody userU1⟩ :=
  c4_success_path envOne getUserOk 7 0 "Bearer tok" "tok" tokGood
    ⟨some "u1", some 100, none⟩ "u1" userU1 (by decide) (by decide) (by decide)
    rfl rfl rfl rfl rfl rfl rfl (by decide) rfl

/-- C5: when the extracted token passes verification with a non-empty userId
but the lookup collaborator fails for that id, the handler answers 401 with
the same generic body error "Authentication failed" as for an invalid token,
and in particular never 200 with a user-data body. -/
theorem c5_lookup_failure_indistinguishable (env : JwtEnv)
    (gu : String → Except Unit UserRecord) (publicKey now : Nat) (h : String)
    (p : JwtPayload) (uid : String) (hne : h ≠ "")
    (hv : jwtVerify env (jsSplit h ' ')[1]? publicKey ["RS256"] now =
      .ok (.objPayload p))
    (huid : p.userId = some uid) (hz : uid ≠ "")
    (hlook : gu uid = .error ()) :
    GET env gu publicKey now (some h) = ⟨401, .errorBody "Authentication failed"⟩ ∧
    ∀ u, GET env gu publicKey now (some h) ≠ ⟨200, .userDataBody u⟩ := by
  have hmain : GET env gu publicKey now (some h) =
      ⟨401, .errorBody "Authentication failed"⟩ := by
    unfold GET
    simp [hne, hv, huid, hz, hlook]
  refine ⟨hmain, fun u hu => ?_⟩
  rw [hmain] at hu
  exact absurd hu (by simp)

/-- Witness for C5 at a concrete input: the valid token of user u1 with an
always-failing lookup collaborator is answered with the generic
authentication failure body. -/
theorem c5_lookup_failure_indistinguishable_witness :
    GET envOne noUser 7 0 (some "Bearer tok") =
      ⟨401, .errorBody "Authentication failed"⟩ ∧
    ∀ u, GET envOne noUser 7 0 (some "Bearer tok") ≠ ⟨200, .userDataBody u⟩ :=
  c5_lookup_failure_indistinguishable envOne noUser 7 0 "Bearer tok"
    ⟨some "u1", some 100, none⟩ "u1" (by decide) rfl rfl (by decide) rfl

/-- C6: when the extracted token passes verification but its decoded payload
is a raw string or an object whose userId claim is absent or the empty
string, the handler answers 401 with the generic body error
"Authentication failed", even though signature and temporal checks passed. -/
theorem c6_missing_subject_rejected (env : JwtEnv)
    (gu : String → Except Unit UserRecord) (publicKey now : Nat) (h : String)
    (d : DecodedPayload) (hne : h ≠ "")
    (hv : jwtVerify env (jsSplit h ' ')[1]? publicKey ["RS256"] now = .ok d)
    (hsub : ∀ p, d = .objPayload p → p.userId = none ∨ p.userId = some "") :
    GET env gu publicKey now (some h) = ⟨401, .errorBody "Authentication failed"⟩ := by
  unfold GET
  rcases d with s | p
  · simp [hne, hv]
  · rcases hsub p rfl with hu | hu <;> simp [hne, hv, hu]

/-- A token that verifies under key 7 but whose payload carries the empty
string as userId claim. -/
def tokNoSubject : SignedToken := ⟨some "RS256", .objPayload ⟨some "", some 100, none⟩, 7⟩

/-- A decoding environment in which exactly the string tok decodes, to
tokNoSubject. -/
def envNoSubject : JwtEnv := ⟨fun s => if s = "tok" then some tokNoSubject else none⟩

/-- Witness for C6 at a concrete input: a token that verifies under the
configured key but carries the empty string as userId is answered with the
generic authentication failure body. -/
theorem c6_missing_subject_rejected_witness :
    GET envNoSubject getUserOk 7 0 (some "Bearer tok") =
      ⟨401, .errorBody "Authentication failed"⟩ :=
  c6_missing_subject_rejected envNoSubject getUserOk 7 0 "Bearer tok"
    (.objPayload ⟨some "", some 100, none⟩) (by decide) rfl
    (fun p hp => by
      injection hp with hp
      subst hp
      exact Or.inr rfl)

/-- C9: the handler never validates the scheme word of a present header: the
response depends only on the second space-separated segment of the header
value, so any scheme word followed by a given token is answered exactly as
the Bearer scheme with that token; and a present non-empty header with no
second segment is answered 401 with body error "Authentication failed",
not with the absent-header body. -/
theorem c9_scheme_word_ignored (env : JwtEnv)
    (gu : String → Except Unit UserRecord) (publicKey now : Nat) :
    (∀ h h', h ≠ "" → h' ≠ "" → (jsSplit h ' ')[1]? = (jsSplit h' ' ')[1]? →
      GET env gu publicKey now (some h) = GET env gu publicKey now (some h')) ∧
    (∀ h, h ≠ "" → (jsSplit h ' ')[1]? = none →
      GET env gu publicKey now (some h) =
        ⟨401, .errorBody "Authentication failed"⟩) := by
  constructor
  · intro h h' hne hne' heq
    unfold GET
    simp [hne, hne', heq]
  · intro h hne ht
    unfold GET
    simp [hne, ht, jwtVerify]

/-- Witness for C9 at concrete inputs: the Basic scheme with the valid token
of u1 is answered exactly as the Bearer scheme with that token, namely 200
with the record of u1. -/
theorem c9_scheme_word_ignored_witness :
    GET envOne getUserOk 7 0 (some "Basic tok") =
      GET envOne getUserOk 7 0 (some "Bearer tok") ∧
    GET envOne getUserOk 7 0 (some "Bearer tok") = ⟨200, .userDataBody userU1⟩ :=
  ⟨(c9_scheme_word_ignored envOne getUserOk 7 0).1 "Basic tok" "Bearer tok"
      (by decide) (by decide) (by decide), by decide⟩
